import Mathlib

/-!
Shallow embedding of the `genfs` crate (src/lib.rs), a `no_std` trait
library describing generic unix-style filesystems.  The crate contains no
executable code beyond the two option builders; the rest is trait
declarations, so the embedding records, faithfully to the source:

* the `SeekFrom` enum together with its `derive` list (lib.rs 20-38);
* the `OpenOptions` / `DirOptions` builders, their derived `Default`
  values and their setters (lib.rs 55-233);
* the receiver and parameter modes of every `Fs` trait method
  (lib.rs 240-496);
* semantic models of the `File`, `Dir`, `DirEntry` and `Fs` traits as
  Lean structures whose proof-free fields are the associated types and
  methods, and whose equality fields transcribe the associated-type
  bounds written in the trait declaration (`File<Error = Self::Error>`,
  `Dir<Self::DirEntry, Self::Error>`,
  `DirEntry<Path = Self::Path, Metadata = Self::Metadata,
  Error = Self::Error>`).

Rust `Result<T, E>` is modelled as `Except E T`, `&mut self` methods as
functions returning the result together with the successor state, `&self`
methods as functions that return only the result, `u32`/`u64` as `Nat`
and `i64` as `Int`.
-/

/-- The Rust traits that can appear in a `derive` attribute in this crate,
used to record which comparison/copy capabilities a type actually has. -/
inductive RustTrait
  | Copy
  | PartialEq
  | Eq
  | Clone
  | Debug
  | PartialOrd
  | Ord
  | Hash
  | Default
deriving DecidableEq

/-- Enumeration of possible methods to seek within an I/O object
(lib.rs 21-38): `Start(u64)`, `End(i64)`, `Current(i64)`. -/
inductive SeekFrom
  | Start : Nat → SeekFrom
  | End : Int → SeekFrom
  | Current : Int → SeekFrom
deriving DecidableEq

/-- The derive attribute on `SeekFrom` (lib.rs 20):
`#[derive(Copy, PartialEq, Eq, Clone, Debug)]`.  The crate contains no
manual `impl` block for `SeekFrom`, so this list is the complete set of
derived capabilities. -/
def SeekFrom.derives : List RustTrait :=
  [.Copy, .PartialEq, .Eq, .Clone, .Debug]

/-- The semantics of the derived `Copy`/`Clone` on `SeekFrom`: a bitwise
copy of the value. -/
def SeekFrom.clone (s : SeekFrom) : SeekFrom := s

/-- Options and flags which can be used to configure how a file is opened
(lib.rs 56-65): six booleans, a generic `mode` and a `u32` flag bag. -/
structure OpenOptions (Permissions : Type) where
  read : Bool
  write : Bool
  append : Bool
  truncate : Bool
  create : Bool
  create_new : Bool
  mode : Permissions
  flags : Nat
deriving DecidableEq

/-- The derive attribute on `OpenOptions` (lib.rs 55). -/
def OpenOptions.derives : List RustTrait :=
  [.Debug, .Clone, .PartialEq, .Eq, .Default, .Hash]

/-- The derived `Default` for `OpenOptions` (lib.rs 55): field-wise
defaults, `false` for every `bool`, the `Permissions` default for `mode`
and `0` for the `u32` flag bag. -/
def OpenOptions.defaultValue {P : Type} [Inhabited P] : OpenOptions P :=
  ⟨false, false, false, false, false, false, Inhabited.default, 0⟩

/-- `OpenOptions::new` (lib.rs 71-73): returns `OpenOptions::default()`. -/
def OpenOptions.new {P : Type} [Inhabited P] : OpenOptions P :=
  OpenOptions.defaultValue

/-- Setter `OpenOptions::read` (lib.rs 79-82): `self.read = read; self`. -/
def OpenOptions.setRead {P : Type} (o : OpenOptions P) (v : Bool) :
    OpenOptions P :=
  ⟨v, o.write, o.append, o.truncate, o.create, o.create_new, o.mode, o.flags⟩

/-- Setter `OpenOptions::write` (lib.rs 91-94). -/
def OpenOptions.setWrite {P : Type} (o : OpenOptions P) (v : Bool) :
    OpenOptions P :=
  ⟨o.read, v, o.append, o.truncate, o.create, o.create_new, o.mode, o.flags⟩

/-- Setter `OpenOptions::append` (lib.rs 130-133). -/
def OpenOptions.setAppend {P : Type} (o : OpenOptions P) (v : Bool) :
    OpenOptions P :=
  ⟨o.read, o.write, v, o.truncate, o.create, o.create_new, o.mode, o.flags⟩

/-- Setter `OpenOptions::truncate` (lib.rs 141-144). -/
def OpenOptions.setTruncate {P : Type} (o : OpenOptions P) (v : Bool) :
    OpenOptions P :=
  ⟨o.read, o.write, o.append, v, o.create, o.create_new, o.mode, o.flags⟩

/-- Setter `OpenOptions::create` (lib.rs 156-159). -/
def OpenOptions.setCreate {P : Type} (o : OpenOptions P) (v : Bool) :
    OpenOptions P :=
  ⟨o.read, o.write, o.append, o.truncate, v, o.create_new, o.mode, o.flags⟩

/-- Setter `OpenOptions::create_new` (lib.rs 179-182). -/
def OpenOptions.setCreateNew {P : Type} (o : OpenOptions P) (v : Bool) :
    OpenOptions P :=
  ⟨o.read, o.write, o.append, o.truncate, o.create, v, o.mode, o.flags⟩

/-- Setter `OpenOptions::mode` (lib.rs 185-188). -/
def OpenOptions.setMode {P : Type} (o : OpenOptions P) (v : P) :
    OpenOptions P :=
  ⟨o.read, o.write, o.append, o.truncate, o.create, o.create_new, v, o.flags⟩

/-- Setter `OpenOptions::custom_flags` (lib.rs 191-194): sets the `flags`
field. -/
def OpenOptions.setCustomFlags {P : Type} (o : OpenOptions P) (v : Nat) :
    OpenOptions P :=
  ⟨o.read, o.write, o.append, o.truncate, o.create, o.create_new, o.mode, v⟩

/-- A builder used to create directories in various manners
(lib.rs 199-203): `recursive: bool`, `mode: Permissions`, `flags: u32`. -/
structure DirOptions (Permissions : Type) where
  recursive : Bool
  mode : Permissions
  flags : Nat
deriving DecidableEq

/-- The derive attribute on `DirOptions` (lib.rs 198). -/
def DirOptions.derives : List RustTrait :=
  [.Debug, .Clone, .PartialEq, .Eq, .Default, .Hash]

/-- The derived `Default` for `DirOptions` (lib.rs 198): field-wise
defaults. -/
def DirOptions.defaultValue {P : Type} [Inhabited P] : DirOptions P :=
  ⟨false, Inhabited.default, 0⟩

/-- `DirOptions::new` (lib.rs 208-210): returns `DirOptions::default()`. -/
def DirOptions.new {P : Type} [Inhabited P] : DirOptions P :=
  DirOptions.defaultValue

/-- Setter `DirOptions::recursive` (lib.rs 217-220). -/
def DirOptions.setRecursive {P : Type} (o : DirOptions P) (v : Bool) :
    DirOptions P :=
  ⟨v, o.mode, o.flags⟩

/-- Setter `DirOptions::mode` (lib.rs 223-226). -/
def DirOptions.setMode {P : Type} (o : DirOptions P) (v : P) :
    DirOptions P :=
  ⟨o.recursive, v, o.flags⟩

/-- Setter `DirOptions::custom_flags` (lib.rs 229-232): sets the `flags`
field. -/
def DirOptions.setCustomFlags {P : Type} (o : DirOptions P) (v : Nat) :
    DirOptions P :=
  ⟨o.recursive, o.mode, v⟩

/-- The fifteen methods of the `Fs` trait (lib.rs 272-495), in source
order. -/
inductive FsOp
  | «open»
  | remove_file
  | metadata
  | symlink_metadata
  | rename
  | copy
  | hard_link
  | symlink
  | create_dir
  | remove_dir
  | remove_dir_all
  | read_dir
  | set_permissions
  | read_link
  | canonicalize
deriving DecidableEq

/-- Whether each `Fs` method takes its receiver by `&mut self` (`true`)
or `&self` (`false`), transcribed from the signatures in lib.rs:
`open` 273, `remove_file` 291, `metadata` 307, `symlink_metadata` 321,
`rename` 339, `copy` 365, `hard_link` 383, `symlink` 392, `read_link`
407, `canonicalize` 422, `create_dir` 437, `remove_dir` 451,
`remove_dir_all` 462, `read_dir` 480, `set_permissions` 492. -/
def Fs.receiverExclusive : FsOp → Bool
  | .«open» => false
  | .remove_file => true
  | .metadata => false
  | .symlink_metadata => false
  | .rename => true
  | .copy => true
  | .hard_link => true
  | .symlink => true
  | .read_link => false
  | .canonicalize => false
  | .create_dir => true
  | .remove_dir => true
  | .remove_dir_all => true
  | .read_dir => false
  | .set_permissions => true

/-- The kinds of non-receiver parameter types appearing in `Fs` method
signatures. -/
inductive ParamTy
  | path
  | openOptions
  | dirOptions
  | permissions
deriving DecidableEq

/-- One non-receiver parameter of an `Fs` method: its type together with
how it is passed (`byRef` for behind a reference, `exclusive` for a
`&mut` reference). -/
structure ParamSig where
  ty : ParamTy
  byRef : Bool
  exclusive : Bool
deriving DecidableEq

/-- The non-receiver parameter list of each `Fs` method, transcribed from
lib.rs 272-495.  Every path travels as `&Self::Path`; `open` additionally
takes `options: &OpenOptions<Self::Permissions>` (line 275), `create_dir`
takes `options: &DirOptions<Self::Permissions>` (line 439), and
`set_permissions` takes `perm: Self::Permissions` by value (line 494). -/
def Fs.params : FsOp → List ParamSig
  | .«open» => [⟨.path, true, false⟩, ⟨.openOptions, true, false⟩]
  | .remove_file => [⟨.path, true, false⟩]
  | .metadata => [⟨.path, true, false⟩]
  | .symlink_metadata => [⟨.path, true, false⟩]
  | .rename => [⟨.path, true, false⟩, ⟨.path, true, false⟩]
  | .copy => [⟨.path, true, false⟩, ⟨.path, true, false⟩]
  | .hard_link => [⟨.path, true, false⟩, ⟨.path, true, false⟩]
  | .symlink => [⟨.path, true, false⟩, ⟨.path, true, false⟩]
  | .read_link => [⟨.path, true, false⟩]
  | .canonicalize => [⟨.path, true, false⟩]
  | .create_dir => [⟨.path, true, false⟩, ⟨.dirOptions, true, false⟩]
  | .remove_dir => [⟨.path, true, false⟩]
  | .remove_dir_all => [⟨.path, true, false⟩]
  | .read_dir => [⟨.path, true, false⟩]
  | .set_permissions => [⟨.path, true, false⟩, ⟨.permissions, false, false⟩]

/-- The mutating `Fs` operations named by the specification: remove_file,
rename, copy, hard_link, symlink, create_dir, remove_dir, remove_dir_all,
set_permissions. -/
def Fs.mutatingOps : List FsOp :=
  [.remove_file, .rename, .copy, .hard_link, .symlink, .create_dir,
   .remove_dir, .remove_dir_all, .set_permissions]

/-- The read-only `Fs` operations named by the specification: open,
metadata, symlink_metadata, read_link, canonicalize, read_dir. -/
def Fs.readOnlyOps : List FsOp :=
  [.«open», .metadata, .symlink_metadata, .read_link, .canonicalize,
   .read_dir]

/-- Semantic model of an implementation of the `File` trait
(lib.rs 504-587) for a handle type `F`: the associated `Error` type and
the four methods.  `read` takes `&self` and a `&mut` buffer, so it
returns the result together with the updated buffer; `write`, `flush`
and `seek` take `&mut self`, so they return the result together with the
successor handle state. -/
structure FileImpl (F : Type) where
  Error : Type
  read : F → List Nat → Except Error Nat × List Nat
  write : F → List Nat → Except Error Nat × F
  flush : F → Except Error Unit × F
  seek : F → SeekFrom → Except Error Nat × F

/-- Semantic model of an implementation of the `DirEntry` trait
(lib.rs 612-648) for an entry type `D`: the five associated types and the
four methods. -/
structure DirEntryImpl (D : Type) where
  Path : Type
  PathOwned : Type
  Metadata : Type
  FileType : Type
  Error : Type
  path : D → PathOwned
  metadata : D → Except Error Metadata
  file_type : D → Except Error FileType
  file_name : D → Path

/-- Semantic model of Rust's `Iterator` trait for a state type `S`: the
associated `Item` type and `next`, returning `none` when the iterator is
exhausted. -/
structure RustIterator (S : Type) where
  Item : Type
  next : S → Option (Item × S)

/-- Semantic model of an implementation of
`trait Dir<T: DirEntry, E>: Iterator<Item = Result<T, E>> {}`
(lib.rs 603) for a type `S`: evidence that `T` implements `DirEntry`
(the `T: DirEntry` bound), an `Iterator` implementation for `S`, and the
supertrait's `Item = Result<T, E>` binding.  The trait body is empty, so
there are no further fields. -/
structure DirImpl (S T E : Type) where
  entry : DirEntryImpl T
  toIterator : RustIterator S
  item_eq : toIterator.Item = Except E T

/-- Stepping a `Dir` iterator, with the `Item = Result<T, E>` binding
applied so each yielded item is literally an `Except E T`. -/
def DirImpl.next {S T E : Type} (d : DirImpl S T E) (s : S) :
    Option (Except E T × S) :=
  (d.toIterator.next s).map fun p => (cast d.item_eq p.1, p.2)

/-- Semantic model of an implementation of the `Fs` trait
(lib.rs 240-496) for a filesystem handle type `F`.

The first group of fields are the eight associated types in source order
(`Path`, `PathOwned`, `File`, `Dir`, `DirEntry`, `Metadata`,
`Permissions`, `Error`, lib.rs 243-264), each trait-bounded one paired
with its implementation evidence; the equality fields transcribe, one
for one, the associated-type bounds written in the trait:

* `file_error_eq` — `type File: File<Error = Self::Error>` (lib.rs 248);
* `dirEntry_path_eq`, `dirEntry_metadata_eq`, `dirEntry_error_eq` —
  `type DirEntry: DirEntry<Path = Self::Path, Metadata = Self::Metadata,
  Error = Self::Error>` (lib.rs 252-256); the trait declaration writes
  no constraint on `DirEntry::PathOwned` or `DirEntry::FileType`, and
  `Fs` itself has no `FileType` associated type;
* the `DirImpl DirT DirEntryT Error` type of `dir` —
  `type Dir: Dir<Self::DirEntry, Self::Error>` (lib.rs 250).

The remaining fields are the fifteen methods; `&self` receivers become
plain functions out of `F`, `&mut self` receivers return the result
together with the successor state (Lean field names avoid the keyword
`end`-style clash by quoting `open`). -/
structure FsImpl (F : Type) where
  Path : Type
  PathOwned : Type
  Metadata : Type
  Permissions : Type
  Error : Type
  FileT : Type
  file : FileImpl FileT
  file_error_eq : file.Error = Error
  DirEntryT : Type
  dirEntry : DirEntryImpl DirEntryT
  dirEntry_path_eq : dirEntry.Path = Path
  dirEntry_metadata_eq : dirEntry.Metadata = Metadata
  dirEntry_error_eq : dirEntry.Error = Error
  DirT : Type
  dir : DirImpl DirT DirEntryT Error
  «open» : F → Path → OpenOptions Permissions → Except Error FileT
  remove_file : F → Path → Except Error Unit × F
  metadata : F → Path → Except Error Metadata
  symlink_metadata : F → Path → Except Error Metadata
  rename : F → Path → Path → Except Error Unit × F
  copy : F → Path → Path → Except Error Nat × F
  hard_link : F → Path → Path → Except Error Unit × F
  symlink : F → Path → Path → Except Error Unit × F
  read_link : F → Path → Except Error PathOwned
  canonicalize : F → Path → Except Error PathOwned
  create_dir : F → Path → DirOptions Permissions → Except Error Unit × F
  remove_dir : F → Path → Except Error Unit × F
  remove_dir_all : F → Path → Except Error Unit × F
  read_dir : F → Path → Except Error DirT
  set_permissions : F → Path → Permissions → Except Error Unit × F

/-- A `DirEntry` implementation whose `PathOwned` associated type is
`Fin 2`: the entry type is `Unit`, paths are `Unit`, metadata, file type
and errors are `Unit`. -/
def exampleDirEntry : DirEntryImpl Unit where
  Path := Unit
  PathOwned := Fin 2
  Metadata := Unit
  FileType := Unit
  Error := Unit
  path := fun _ => 0
  metadata := fun _ => Except.ok ()
  file_type := fun _ => Except.ok ()
  file_name := fun _ => ()

/-- A `Dir` implementation over `exampleDirEntry` whose iterator is
immediately exhausted. -/
def exampleDir : DirImpl Unit Unit Unit where
  entry := exampleDirEntry
  toIterator := ⟨Except Unit Unit, fun _ => none⟩
  item_eq := rfl

/-- A `Dir` implementation over `exampleDirEntry` whose iterator yields
`Ok(entry)` forever. -/
def exampleDirOk : DirImpl Unit Unit Unit where
  entry := exampleDirEntry
  toIterator := ⟨Except Unit Unit, fun s => some (Except.ok (), s)⟩
  item_eq := rfl

/-- A complete implementor of the `Fs` contract: every associated type
is `Unit` except `PathOwned`, which is `Fin 1` on `Fs` while the
`DirEntry` implementation uses `Fin 2` for its own `PathOwned`.  All
bound fields demanded by the trait declaration are discharged by `rfl`,
so this value witnesses that the declaration accepts an implementor
whose two `PathOwned` types differ. -/
def exampleFs : FsImpl Unit where
  Path := Unit
  PathOwned := Fin 1
  Metadata := Unit
  Permissions := Unit
  Error := Unit
  FileT := Unit
  file :=
    { Error := Unit
      read := fun _ buf => (Except.ok 0, buf)
      write := fun f _ => (Except.ok 0, f)
      flush := fun f => (Except.ok (), f)
      seek := fun f _ => (Except.ok 0, f) }
  file_error_eq := rfl
  DirEntryT := Unit
  dirEntry := exampleDirEntry
  dirEntry_path_eq := rfl
  dirEntry_metadata_eq := rfl
  dirEntry_error_eq := rfl
  DirT := Unit
  dir := exampleDir
  «open» := fun _ _ _ => Except.ok ()
  remove_file := fun f _ => (Except.ok (), f)
  metadata := fun _ _ => Except.ok ()
  symlink_metadata := fun _ _ => Except.ok ()
  rename := fun f _ _ => (Except.ok (), f)
  copy := fun f _ _ => (Except.ok 0, f)
  hard_link := fun f _ _ => (Except.ok (), f)
  symlink := fun f _ _ => (Except.ok (), f)
  read_link := fun _ _ => Except.ok 0
  canonicalize := fun _ _ => Except.ok 0
  create_dir := fun f _ _ => (Except.ok (), f)
  remove_dir := fun f _ => (Except.ok (), f)
  remove_dir_all := fun f _ => (Except.ok (), f)
  read_dir := fun _ _ => Except.ok ()
  set_permissions := fun f _ _ => (Except.ok (), f)

/-- Two finite types of different cardinality are different types; used
to separate `PathOwned` representations. -/
theorem fin_one_ne_fin_two : (Fin 1 : Type) ≠ Fin 2 := by
  intro h
  have hc := Fintype.card_congr (Equiv.cast h)
  simp [Fintype.card_fin] at hc

/-- Claim C1 counterexample: `exampleFs` is a complete implementor of
the `Fs` contract (every bound in the trait declaration is satisfied),
yet its `DirEntry` implementation's `PathOwned` associated type (`Fin 2`)
differs from the `Fs`'s own `PathOwned` (`Fin 1`): the `Fs::DirEntry`
bound does not force `PathOwned` agreement, so the claim that it forces
all five associated types to agree is false. -/
theorem exampleFs_direntry_pathOwned_disagrees :
    exampleFs.dirEntry.PathOwned ≠ exampleFs.PathOwned := by
  intro h
  exact fin_one_ne_fin_two h.symm

/-- Claim C1 (amended): for every implementor of `Fs`, the
`Fs::DirEntry` associated-type bound forces the `DirEntry` type's own
`Path`, `Metadata` and `Error` associated types to agree with the owning
`Fs`'s corresponding associated types; it writes no constraint on the
entry's `PathOwned` or `FileType` (and `Fs` has no `FileType` associated
type at all). -/
theorem fs_direntry_bound_forces_path_metadata_error {F : Type}
    (i : FsImpl F) :
    i.dirEntry.Path = i.Path ∧ i.dirEntry.Metadata = i.Metadata ∧
      i.dirEntry.Error = i.Error :=
  ⟨i.dirEntry_path_eq, i.dirEntry_metadata_eq, i.dirEntry_error_eq⟩

/-- Claim C2 counterexample: no implementor of the `Fs` contract can
give its `File` type an `Error` different from `Fs::Error`, because the
declaration `type File: File<Error = Self::Error>` (lib.rs 248) equates
them; the claim that `Fs::File`'s error type is an independent generic
is false. -/
theorem fs_file_error_never_differs :
    ¬ ∃ (F : Type) (i : FsImpl F), i.file.Error ≠ i.Error := by
  rintro ⟨F, i, h⟩
  exact h i.file_error_eq

/-- Claim C2 (amended): the `Fs::File` associated-type bound
`File<Error = Self::Error>` forces every implementor's `File` error type
to equal `Fs::Error`; the two error types are unified by the contract,
not left independent. -/
theorem fs_file_error_eq_fs_error {F : Type} (i : FsImpl F) :
    i.file.Error = i.Error :=
  i.file_error_eq

/-- Claim C3: for every `Permissions` type with a default value,
`OpenOptions::new()` returns a value whose six boolean flags (`read`,
`write`, `append`, `truncate`, `create`, `create_new`) are all `false`
and whose `mode` is the `Permissions` default, and `DirOptions::new()`
returns `recursive = false` and `mode` at the default. -/
theorem options_new_all_flags_false {P : Type} [Inhabited P] :
    (OpenOptions.new : OpenOptions P).read = false ∧
    (OpenOptions.new : OpenOptions P).write = false ∧
    (OpenOptions.new : OpenOptions P).append = false ∧
    (OpenOptions.new : OpenOptions P).truncate = false ∧
    (OpenOptions.new : OpenOptions P).create = false ∧
    (OpenOptions.new : OpenOptions P).create_new = false ∧
    (OpenOptions.new : OpenOptions P).mode = Inhabited.default ∧
    (DirOptions.new : DirOptions P).recursive = false ∧
    (DirOptions.new : DirOptions P).mode = Inhabited.default :=
  ⟨rfl, rfl, rfl, rfl, rfl, rfl, rfl, rfl, rfl⟩

/-- Claim C4 counterexample: the derive attribute on `SeekFrom`
(lib.rs 20) is `Copy, PartialEq, Eq, Clone, Debug`, and the crate has no
manual `impl` for `SeekFrom`, so neither `Ord` nor `PartialOrd` is
available: the claim that a total order comparison is available is
false. -/
theorem seekFrom_no_order_comparison :
    RustTrait.Ord ∉ SeekFrom.derives ∧
      RustTrait.PartialOrd ∉ SeekFrom.derives := by
  decide

/-- Claim C4 (amended): `SeekFrom` is a pure value type that is
equality-comparable and copyable — equality of any two values is
decidable (`PartialEq`/`Eq` are derived) and copying a value yields an
equal value (`Copy`/`Clone` are derived) — but no order comparison is
derived or implemented. -/
theorem seekFrom_value_semantics :
    (∀ a b : SeekFrom, a = b ∨ a ≠ b) ∧
    (∀ s : SeekFrom, s.clone = s) ∧
    RustTrait.PartialEq ∈ SeekFrom.derives ∧
    RustTrait.Eq ∈ SeekFrom.derives ∧
    RustTrait.Copy ∈ SeekFrom.derives ∧
    RustTrait.Clone ∈ SeekFrom.derives :=
  ⟨fun a b => eq_or_ne a b, fun _ => rfl,
   by decide, by decide, by decide, by decide⟩

/-- Claim C5: every mutating `Fs` operation (`remove_file`, `rename`,
`copy`, `hard_link`, `symlink`, `create_dir`, `remove_dir`,
`remove_dir_all`, `set_permissions`) takes its receiver by `&mut self`,
and every listed read-only operation (`open`, `metadata`,
`symlink_metadata`, `read_link`, `canonicalize`, `read_dir`) takes it by
`&self`. -/
theorem fs_receiver_modes :
    Fs.mutatingOps.all Fs.receiverExclusive = true ∧
      Fs.readOnlyOps.all (fun op => !Fs.receiverExclusive op) = true := by
  decide

/-- Claim C7: `Fs::open` (lib.rs 275) and `Fs::create_dir` (lib.rs 439)
receive their options argument behind a shared (non-`mut`) reference.
In the embedding a shared-reference parameter is a pure input, so the
options value is unchanged by the call and the same `OpenOptions`
(`DirOptions`) instance may be passed to any number of successive `open`
(`create_dir`) calls. -/
theorem fs_options_passed_by_shared_ref :
    (Fs.params FsOp.«open»).get? 1 =
        some ⟨ParamTy.openOptions, true, false⟩ ∧
      (Fs.params FsOp.create_dir).get? 1 =
        some ⟨ParamTy.dirOptions, true, false⟩ := by
  decide

/-- Claim C8: the `Dir<T, E>` contract is exactly a forward-only
iterator whose every step yields a `Result<T, E>` with `T` a `DirEntry`:
an implementation is precisely a `T: DirEntry` witness together with an
`Iterator` implementation whose `Item` is `Result<T, E>` (the trait body
adds no members), and each step of the iterator yields either nothing or
a single item that is independently `Ok` or `Err`. -/
theorem dir_contract_is_iterator_of_results {S T E : Type} :
    Nonempty (DirImpl S T E ≃
      DirEntryImpl T × { it : RustIterator S // it.Item = Except E T }) ∧
    ∀ (d : DirImpl S T E) (s : S),
      d.next s = none ∨
        ∃ r s2, d.next s = some (r, s2) ∧
          ((∃ t, r = Except.ok t) ∨ (∃ e, r = Except.error e)) := by
  constructor
  · exact ⟨⟨fun d => (d.entry, ⟨d.toIterator, d.item_eq⟩),
      fun p => ⟨p.1, p.2.1, p.2.2⟩, fun d => rfl, fun p => rfl⟩⟩
  · intro d s
    cases h : d.next s with
    | none => exact Or.inl rfl
    | some p =>
      obtain ⟨r, s2⟩ := p
      refine Or.inr ⟨r, s2, rfl, ?_⟩
      cases r with
      | ok t => exact Or.inl ⟨t, rfl⟩
      | error e => exact Or.inr ⟨e, rfl⟩

/-- Claim C9: `Fs::open` takes the filesystem receiver by `&self` — and
since the receiver mode is fixed by the one signature at lib.rs 272-276,
this holds for every options combination, including write, append,
create and create_new — while every mutating whole-path operation takes
`&mut self`. -/
theorem fs_open_receiver_shared_for_all_options :
    (∀ _opts : OpenOptions Bool,
        Fs.receiverExclusive FsOp.«open» = false) ∧
      Fs.mutatingOps.all
        (fun op => Fs.receiverExclusive op &&
          !Fs.receiverExclusive FsOp.«open») = true :=
  ⟨fun _ => rfl, by decide⟩

/-- Claim C10: a freshly constructed `OpenOptions::new()` (and
`DirOptions::new()`) also has its backend-specific `u32` `flags` bag
equal to `0`, and equals the type's derived `Default` value field for
field. -/
theorem options_new_flags_zero_eq_default {P : Type} [Inhabited P] :
    (OpenOptions.new : OpenOptions P).flags = 0 ∧
    (OpenOptions.new : OpenOptions P) = OpenOptions.defaultValue ∧
    (DirOptions.new : DirOptions P).flags = 0 ∧
    (DirOptions.new : DirOptions P) = DirOptions.defaultValue :=
  ⟨rfl, rfl, rfl, rfl⟩

/-- Claim C6: each builder setter (`read`, `write`, `append`, `truncate`,
`create`, `create_new`, `mode`, `custom_flags` on `OpenOptions`;
`recursive`, `mode`, `custom_flags` on `DirOptions`), called with
argument `v`, sets exactly its corresponding field to `v` and leaves
every other field of the builder unchanged.  In the source each setter
returns the `&mut Self` it was called on; in the embedding that returned
builder is the updated value whose fields are enumerated here. -/
theorem option_setters_set_exactly_one_field {P : Type}
    (o : OpenOptions P) (d : DirOptions P) (b : Bool) (m : P) (u : Nat) :
    ((o.setRead b).read = b ∧ (o.setRead b).write = o.write ∧
      (o.setRead b).append = o.append ∧
      (o.setRead b).truncate = o.truncate ∧
      (o.setRead b).create = o.create ∧
      (o.setRead b).create_new = o.create_new ∧
      (o.setRead b).mode = o.mode ∧ (o.setRead b).flags = o.flags) ∧
    ((o.setWrite b).write = b ∧ (o.setWrite b).read = o.read ∧
      (o.setWrite b).append = o.append ∧
      (o.setWrite b).truncate = o.truncate ∧
      (o.setWrite b).create = o.create ∧
      (o.setWrite b).create_new = o.create_new ∧
      (o.setWrite b).mode = o.mode ∧ (o.setWrite b).flags = o.flags) ∧
    ((o.setAppend b).append = b ∧ (o.setAppend b).read = o.read ∧
      (o.setAppend b).write = o.write ∧
      (o.setAppend b).truncate = o.truncate ∧
      (o.setAppend b).create = o.create ∧
      (o.setAppend b).create_new = o.create_new ∧
      (o.setAppend b).mode = o.mode ∧ (o.setAppend b).flags = o.flags) ∧
    ((o.setTruncate b).truncate = b ∧ (o.setTruncate b).read = o.read ∧
      (o.setTruncate b).write = o.write ∧
      (o.setTruncate b).append = o.append ∧
      (o.setTruncate b).create = o.create ∧
      (o.setTruncate b).create_new = o.create_new ∧
      (o.setTruncate b).mode = o.mode ∧
      (o.setTruncate b).flags = o.flags) ∧
    ((o.setCreate b).create = b ∧ (o.setCreate b).read = o.read ∧
      (o.setCreate b).write = o.write ∧
      (o.setCreate b).append = o.append ∧
      (o.setCreate b).truncate = o.truncate ∧
      (o.setCreate b).create_new = o.create_new ∧
      (o.setCreate b).mode = o.mode ∧ (o.setCreate b).flags = o.flags) ∧
    ((o.setCreateNew b).create_new = b ∧
      (o.setCreateNew b).read = o.read ∧
      (o.setCreateNew b).write = o.write ∧
      (o.setCreateNew b).append = o.append ∧
      (o.setCreateNew b).truncate = o.truncate ∧
      (o.setCreateNew b).create = o.create ∧
      (o.setCreateNew b).mode = o.mode ∧
      (o.setCreateNew b).flags = o.flags) ∧
    ((o.setMode m).mode = m ∧ (o.setMode m).read = o.read ∧
      (o.setMode m).write = o.write ∧ (o.setMode m).append = o.append ∧
      (o.setMode m).truncate = o.truncate ∧
      (o.setMode m).create = o.create ∧
      (o.setMode m).create_new = o.create_new ∧
      (o.setMode m).flags = o.flags) ∧
    ((o.setCustomFlags u).flags = u ∧
      (o.setCustomFlags u).read = o.read ∧
      (o.setCustomFlags u).write = o.write ∧
      (o.setCustomFlags u).append = o.append ∧
      (o.setCustomFlags u).truncate = o.truncate ∧
      (o.setCustomFlags u).create = o.create ∧
      (o.setCustomFlags u).create_new = o.create_new ∧
      (o.setCustomFlags u).mode = o.mode) ∧
    ((d.setRecursive b).recursive = b ∧ (d.setRecursive b).mode = d.mode ∧
      (d.setRecursive b).flags = d.flags) ∧
    ((d.setMode m).mode = m ∧ (d.setMode m).recursive = d.recursive ∧
      (d.setMode m).flags = d.flags) ∧
    ((d.setCustomFlags u).flags = u ∧
      (d.setCustomFlags u).recursive = d.recursive ∧
      (d.setCustomFlags u).mode = d.mode) :=
  ⟨⟨rfl, rfl, rfl, rfl, rfl, rfl, rfl, rfl⟩,
   ⟨rfl, rfl, rfl, rfl, rfl, rfl, rfl, rfl⟩,
   ⟨rfl, rfl, rfl, rfl, rfl, rfl, rfl, rfl⟩,
   ⟨rfl, rfl, rfl, rfl, rfl, rfl, rfl, rfl⟩,
   ⟨rfl, rfl, rfl, rfl, rfl, rfl, rfl, rfl⟩,
   ⟨rfl, rfl, rfl, rfl, rfl, rfl, rfl, rfl⟩,
   ⟨rfl, rfl, rfl, rfl, rfl, rfl, rfl, rfl⟩,
   ⟨rfl, rfl, rfl, rfl, rfl, rfl, rfl, rfl⟩,
   ⟨rfl, rfl, rfl⟩, ⟨rfl, rfl, rfl⟩, ⟨rfl, rfl, rfl⟩⟩
